import Mathlib

/-!
Shallow embedding of `rpi/motor.py` (yozakura motor-actuation core).

Modelling conventions:
* Python floats are modelled as exact rationals (`ℚ`); `round(x, 4)` is
  modelled as decimal round-half-to-even (Python's rounding mode) on the
  exact rational value, and `int(x)` for nonnegative `x` as `Int.floor`.
* The class-level mutable state of `Motor` (`Motor.motors`, `Motor._count`),
  the serial link and the GPIO cleanup call are gathered in one explicit
  state record `GState`.  Motor objects live in a `heap` list; the registry
  `Motor.motors` is a list of references (heap indices), so that object
  identity (`list.remove(self)`) is modelled faithfully.
* Python exceptions are modelled by returning the state reached so far
  together with an `Except` value: statements mutated before a `raise`
  persist, later statements do not run.
* Logging calls, `gpio.setup`, the reset pulse (`reset_driver`) and the
  `sleep` in it have no observable effect on the modelled state and are
  omitted; the levels of the two fault lines are passed to the fault
  callback as booleans (the instantaneous `gpio.input` reads).
-/

/-- Decimal round-half-to-even of a rational to an integer
(the rounding mode of Python's built-in `round`). -/
def rhe (q : ℚ) : ℤ :=
  let f := ⌊q⌋
  let r := q - f
  if r < 1/2 then f
  else if 1/2 < r then f + 1
  else if f % 2 = 0 then f else f + 1

/-- Python's `round(q, 4)`: round to 4 decimal digits, half to even. -/
def round4 (q : ℚ) : ℚ := (rhe (q * 10000) : ℚ) / 10000

/-- The dead-zone remapping in `Motor._scale_speed` (motor.py lines 209-213):
`speed > 0 ↦ speed*(1-start_input)+start_input`,
`speed < 0 ↦ speed*(1-start_input)-start_input`, `0 ↦ 0`. -/
def deadzone (start_input speed : ℚ) : ℚ :=
  if speed > 0 then speed * (1 - start_input) + start_input
  else if speed < 0 then speed * (1 - start_input) - start_input
  else speed

/-- `Motor._scale_speed` (motor.py lines 194-218): dead-zone remap, multiply
by `max_speed`, then `round(speed, 4)`. -/
def scale_speed (start_input max_speed speed : ℚ) : ℚ :=
  round4 (deadzone start_input speed * max_speed)

/-- Modelled from the spec: `rpi.bitfields.MotorPacket` is imported by
motor.py but its source is not part of the given sources; the spec fixes the
wire layout as bits [7:6] = motor_id, bit 5 = sign, bits [4:0] = magnitude,
each field truncated to its width. -/
def motorPacketByte (motor_id negative speed : Nat) : Nat :=
  motor_id % 4 * 64 + negative % 2 * 32 + speed % 32

/-- A `Motor` object (motor.py lines 101-134): per-instance attributes.
`dirLevel`/`pwmDuty` track the level written to the DIR pin and the last PWM
duty cycle; `dirLevel = false` is `gpio.LOW`. -/
structure MotorM where
  motor_id : Nat
  name : String
  pin_fault_1 : Nat
  pin_fault_2 : Nat
  pin_reset : Nat
  start_input : ℚ
  max_speed : ℚ
  has_serial : Bool
  has_pwm : Bool
  pin_pwm : Nat
  pin_dir : Nat
  dirLevel : Bool
  pwmDuty : ℚ
  pwmFreq : ℚ
deriving DecidableEq

/-- The exceptions motor.py can raise (from `common.exceptions`, plus
Python's `ValueError` from `list.remove`).  `InvalidRef` is a modelling
artifact for a dangling heap reference; it is unreachable for states built
through the API. -/
inductive MotorError where
  | TooManyMotorsError : MotorError
  | InvalidArgError : String → MotorError
  | NoDriversError : Nat → MotorError
  | ValueError : MotorError
  | InvalidRef : MotorError
deriving DecidableEq

/-- Global state: all constructed motor objects (`heap`, index = object
identity), the registry `Motor.motors` (heap references), the monotonic
class counter `Motor._count`, the sequence of bytes written to the serial
link, and the number of `gpio.cleanup()` calls. -/
structure GState where
  heap : List MotorM
  registry : List Nat
  count : Nat
  serialLog : List Nat
  cleanupCount : Nat
deriving DecidableEq

/-- The process state before any motor is constructed. -/
def st0 : GState := ⟨[], [], 0, [], 0⟩

/-- Replace the motor object at heap index `ref`. -/
def setMotor (st : GState) (ref : Nat) (m : MotorM) : GState :=
  { st with heap := st.heap.set ref m }

/-- The freshly constructed motor record produced by `Motor.__init__`
(motor.py lines 109-119). -/
def freshMotor (c : Nat) (nm : String) (f1 f2 rst : Nat) (si ms : ℚ) : MotorM :=
  ⟨c, nm, f1, f2, rst, si, ms, false, false, 0, 0, false, 0, 28000⟩

/-- `Motor.__init__` (motor.py lines 101-134): reject when `_count == 4`,
then validate `start_input` and `max_speed`, then append the new object to
the heap, register it, and increment `_count`.  On success the new object's
heap reference is returned. -/
def Motor_init (st : GState) (nm : String) (f1 f2 rst : Nat) (si ms : ℚ) :
    GState × Except MotorError Nat :=
  if st.count = 4 then (st, Except.error MotorError.TooManyMotorsError)
  else if ¬(0 ≤ si ∧ si ≤ 1) then
    (st, Except.error (MotorError.InvalidArgError "start_input should be between 0 and 1."))
  else if ¬(0 ≤ ms ∧ ms ≤ 1) then
    (st, Except.error (MotorError.InvalidArgError "max_speed should be between 0 and 1."))
  else
    ({ st with
        heap := st.heap ++ [freshMotor st.count nm f1 f2 rst si ms],
        registry := st.registry ++ [st.heap.length],
        count := st.count + 1 },
     Except.ok st.heap.length)

/-- `Motor.enable_serial` (motor.py lines 168-182): mark the serial backend
available.  The connection handle itself is not modelled; all serial writes
go to the single `serialLog`. -/
def Motor_enable_serial (st : GState) (ref : Nat) : GState :=
  match st.heap[ref]? with
  | some m => setMotor st ref { m with has_serial := true }
  | none => st

/-- `Motor.enable_pwm` (motor.py lines 136-166): record the PWM/DIR pins,
drive DIR low, start PWM at duty 0, and mark the PWM backend available. -/
def Motor_enable_pwm (st : GState) (ref pwm direction : Nat) (frequency : ℚ) : GState :=
  match st.heap[ref]? with
  | some m => setMotor st ref
      { m with pin_pwm := pwm, pin_dir := direction, dirLevel := false,
               pwmDuty := 0, pwmFreq := frequency, has_pwm := true }
  | none => st

/-- The byte built and written by `Motor._transmit` (motor.py lines 220-243):
`negative = 1 if speed < 0 else 0`, `speed field = int(abs(scaled) * 31)`
(Python `int` truncates; the argument is nonnegative, so it is a floor). -/
def transmit_byte (m : MotorM) (speed : ℚ) : Nat :=
  motorPacketByte m.motor_id
    (if speed < 0 then 1 else 0)
    (⌊|scale_speed m.start_input m.max_speed speed| * 31⌋).toNat

/-- `Motor.drive` (motor.py lines 263-286): serial backend takes priority;
otherwise software PWM (`_pwm_drive`, lines 245-261: DIR low iff the scaled
speed is negative, duty cycle `abs(scaled) * 100`); otherwise raise
`NoDriversError`. -/
def Motor_drive (st : GState) (ref : Nat) (speed : ℚ) : GState × Except MotorError Unit :=
  match st.heap[ref]? with
  | none => (st, Except.error MotorError.InvalidRef)
  | some m =>
    if m.has_serial then
      ({ st with serialLog := st.serialLog ++ [transmit_byte m speed] }, Except.ok ())
    else if m.has_pwm then
      let scaled := scale_speed m.start_input m.max_speed speed
      (setMotor st ref
        { m with dirLevel := if scaled < 0 then false else true,
                 pwmDuty := |scaled| * 100 },
       Except.ok ())
    else (st, Except.error (MotorError.NoDriversError m.motor_id))

/-- `Motor.shutdown` (motor.py lines 300-308): `drive(0)`, then
`Motor.motors.remove(self)` (first occurrence; `ValueError` if absent).
If `drive` raises, the removal is never reached. -/
def Motor_shutdown (st : GState) (ref : Nat) : GState × Except MotorError Unit :=
  match Motor_drive st ref 0 with
  | (st', Except.error e) => (st', Except.error e)
  | (st', Except.ok _) =>
    if ref ∈ st'.registry then
      ({ st' with registry := st'.registry.erase ref }, Except.ok ())
    else (st', Except.error MotorError.ValueError)

/-- The `for motor in Motor.motors: motor.shutdown()` loop of
`Motor.shutdown_all` (motor.py lines 314-315), with Python's iteration
protocol made explicit: an index cursor advances by one per iteration and
the loop stops as soon as the cursor reaches the CURRENT length of the
(mutated) list.  `fuel` only bounds recursion; `registry.length + 1` is
always enough. -/
def shutdownAllLoop : Nat → Nat → GState → GState × Except MotorError Unit
  | 0, _, st => (st, Except.ok ())
  | Nat.succ fuel, i, st =>
    match st.registry[i]? with
    | none => (st, Except.ok ())
    | some ref =>
      match Motor_shutdown st ref with
      | (st', Except.error e) => (st', Except.error e)
      | (st', Except.ok _) => shutdownAllLoop fuel (i+1) st'

/-- `Motor.shutdown_all` (motor.py lines 310-317): shut down every motor via
the iteration loop, then `gpio.cleanup()` once.  An exception escaping a
`shutdown` call propagates and skips the cleanup. -/
def Motor_shutdown_all (st : GState) : GState × Except MotorError Unit :=
  match shutdownAllLoop (st.registry.length + 1) 0 st with
  | (st', Except.error e) => (st', Except.error e)
  | (st', Except.ok _) =>
    ({ st' with cleanupCount := st'.cleanupCount + 1 }, Except.ok ())

/-- Fault classification tag (motor.py lines 184-192). -/
inductive FaultKind where
  | Undervolt : FaultKind
  | Overtemp : FaultKind
  | ShortCircuitLatched : FaultKind
deriving DecidableEq

/-- The classification logic of `Motor._catch_fault` (motor.py lines
184-192): `if` / `elif` / `elif` with no `else`, over the instantaneous
levels of the two fault lines. -/
def classify_fault (level1 level2 : Bool) : Option FaultKind :=
  if level1 && level2 then some FaultKind.Undervolt
  else if level1 then some FaultKind.Overtemp
  else if level2 then some FaultKind.ShortCircuitLatched
  else none

/-- `Motor._catch_fault` as a state transformer: the callback only reads the
fault lines and logs; it mutates nothing and raises nothing, so it returns
the state unchanged together with the emitted classification (if any). -/
def Motor_catch_fault (st : GState) (level1 level2 : Bool) :
    GState × Option FaultKind :=
  (st, classify_fault level1 level2)

/-- Calibration preservation: every motor object keeps its `start_input` and
`max_speed` across a state transition. -/
def calibPreserved (st st' : GState) : Prop :=
  ∀ (i : Nat) (m : MotorM), st.heap[i]? = some m →
    ∃ m' : MotorM, st'.heap[i]? = some m' ∧
      m'.start_input = m.start_input ∧ m'.max_speed = m.max_speed

/- Concrete states used by the counterexamples and witnesses. -/

/-- The §8 scenario-B motor: `start_input = 0.2`, `max_speed = 0.8`,
serial enabled. -/
def stLeft : GState :=
  Motor_enable_serial (Motor_init st0 "left" 1 2 3 (1/5) (4/5)).1 0

/-- The scenario-B motor object as registered. -/
def mLeft : MotorM := ⟨0, "left", 1, 2, 3, 1/5, 4/5, true, false, 0, 0, false, 0, 28000⟩

/-- One registered motor with no backend enabled. -/
def stSolo : GState := (Motor_init st0 "solo" 11 12 13 0 1).1

/-- The backend-less motor object. -/
def mSolo : MotorM := freshMotor 0 "solo" 11 12 13 0 1

/-- One registered motor with both serial and PWM enabled. -/
def stDual : GState :=
  Motor_enable_pwm (Motor_enable_serial (Motor_init st0 "dual" 1 2 3 (1/5) (4/5)).1 0) 0 7 8 28000

/-- The dual-backend motor object. -/
def mDual : MotorM := ⟨0, "dual", 1, 2, 3, 1/5, 4/5, true, true, 7, 8, false, 0, 28000⟩

/-- Four registered motors, the first serial-enabled. -/
def stFour : GState :=
  Motor_enable_serial
    ((Motor_init ((Motor_init ((Motor_init ((Motor_init st0 "a" 1 2 3 0 1).1)
      "b" 4 5 6 0 1).1) "c" 7 8 9 0 1).1) "d" 10 11 12 0 1).1) 0

/-- `stFour` after motor 0 has been shut down (deregistered). -/
def stThree : GState := (Motor_shutdown stFour 0).1

/-- Two registered motors, both serial-enabled. -/
def stPair : GState :=
  Motor_enable_serial
    (Motor_enable_serial ((Motor_init ((Motor_init st0 "a" 1 2 3 0 1).1) "b" 4 5 6 0 1).1) 0) 1

/-! ### Helper lemmas about the rounding primitive -/

theorem rhe_le (q : ℚ) : (rhe q : ℚ) ≤ q + 1/2 := by
  have h1 := Int.floor_le q
  have h2 := Int.lt_floor_add_one q
  simp only [rhe]
  split_ifs <;> push_cast <;> linarith

theorem rhe_ge (q : ℚ) : q - 1/2 ≤ (rhe q : ℚ) := by
  have h1 := Int.floor_le q
  have h2 := Int.lt_floor_add_one q
  simp only [rhe]
  split_ifs <;> push_cast <;> linarith

theorem rhe_le_int {q : ℚ} {n : ℤ} (h : q ≤ n) : rhe q ≤ n := by
  have h1 := rhe_le q
  have h2 : (rhe q : ℚ) < (n : ℚ) + 1 := by linarith
  have h3 : rhe q < n + 1 := by exact_mod_cast h2
  omega

theorem int_le_rhe {q : ℚ} {n : ℤ} (h : (n : ℚ) ≤ q) : n ≤ rhe q := by
  have h1 := rhe_ge q
  have h2 : (n : ℚ) - 1 < (rhe q : ℚ) := by linarith
  have h3 : n - 1 < rhe q := by exact_mod_cast h2
  omega

theorem rhe_zero : rhe 0 = 0 := by
  simp only [rhe, Int.floor_zero]
  norm_num

theorem round4_zero : round4 0 = 0 := by
  simp only [round4, zero_mul, rhe_zero, Int.cast_zero, zero_div]

theorem round4_nonneg {q : ℚ} (h : 0 ≤ q) : 0 ≤ round4 q := by
  have h1 : (0 : ℤ) ≤ rhe (q * 10000) := int_le_rhe (by push_cast; linarith)
  have h2 : (0 : ℚ) ≤ (rhe (q * 10000) : ℚ) := by exact_mod_cast h1
  simp only [round4]
  positivity

theorem round4_nonpos {q : ℚ} (h : q ≤ 0) : round4 q ≤ 0 := by
  have h1 : rhe (q * 10000) ≤ (0 : ℤ) := rhe_le_int (by push_cast; linarith)
  have h2 : (rhe (q * 10000) : ℚ) ≤ 0 := by exact_mod_cast h1
  simp only [round4]
  apply div_nonpos_of_nonpos_of_nonneg h2
  norm_num

theorem round4_le_one {q : ℚ} (h : q ≤ 1) : round4 q ≤ 1 := by
  have h1 : rhe (q * 10000) ≤ (10000 : ℤ) := rhe_le_int (by push_cast; linarith)
  have h2 : (rhe (q * 10000) : ℚ) ≤ 10000 := by exact_mod_cast h1
  simp only [round4]
  rw [div_le_one (by norm_num)]
  linarith

theorem neg_one_le_round4 {q : ℚ} (h : -1 ≤ q) : -1 ≤ round4 q := by
  have h1 : (-10000 : ℤ) ≤ rhe (q * 10000) := int_le_rhe (by push_cast; linarith)
  have h2 : (-10000 : ℚ) ≤ (rhe (q * 10000) : ℚ) := by exact_mod_cast h1
  simp only [round4]
  rw [le_div_iff (by norm_num)]
  linarith

theorem round4_near (q : ℚ) : |round4 q - q| ≤ 1/20000 := by
  have h1 := rhe_le (q * 10000)
  have h2 := rhe_ge (q * 10000)
  rw [abs_le]
  simp only [round4]
  constructor <;> [nlinarith; nlinarith]

theorem round4_pos {q : ℚ} (h : 1/20000 < q) : 0 < round4 q := by
  have h2 := rhe_ge (q * 10000)
  have h3 : (0 : ℚ) < (rhe (q * 10000) : ℚ) := by linarith
  have h4 : (0 : ℤ) < rhe (q * 10000) := by exact_mod_cast h3
  simp only [round4]
  positivity

theorem round4_neg {q : ℚ} (h : q < -(1/20000)) : round4 q < 0 := by
  have h2 := rhe_le (q * 10000)
  have h3 : (rhe (q * 10000) : ℚ) < 0 := by linarith
  simp only [round4]
  exact div_neg_of_neg_of_pos h3 (by norm_num)

/-! ### Helper lemmas about the dead-zone remap and the scaler -/

theorem deadzone_zero (s : ℚ) : deadzone s 0 = 0 := by
  simp [deadzone]

theorem deadzone_bounds_pos {s speed : ℚ} (hs0 : 0 ≤ s) (hs1 : s ≤ 1)
    (hp : 0 < speed) (hp1 : speed ≤ 1) :
    speed ≤ deadzone s speed ∧ deadzone s speed ≤ 1 := by
  simp only [deadzone, if_pos hp]
  constructor <;> nlinarith

theorem deadzone_bounds_neg {s speed : ℚ} (hs0 : 0 ≤ s) (hs1 : s ≤ 1)
    (hn : speed < 0) (hn1 : -1 ≤ speed) :
    -1 ≤ deadzone s speed ∧ deadzone s speed ≤ speed := by
  have hnp : ¬ speed > 0 := by linarith
  simp only [deadzone, if_neg hnp, if_pos hn]
  constructor <;> nlinarith

theorem scale_speed_zero (s m : ℚ) : scale_speed s m 0 = 0 := by
  simp only [scale_speed, deadzone_zero, zero_mul, round4_zero]


theorem deadzone_abs_le_one {s speed : ℚ} (hs0 : 0 ≤ s) (hs1 : s ≤ 1)
    (hp0 : -1 ≤ speed) (hp1 : speed ≤ 1) :
    -1 ≤ deadzone s speed ∧ deadzone s speed ≤ 1 := by
  rcases lt_trichotomy speed 0 with h | h | h
  · obtain ⟨h1, h2⟩ := deadzone_bounds_neg hs0 hs1 h hp0
    exact ⟨h1, by linarith⟩
  · rw [h, deadzone_zero]
    norm_num
  · obtain ⟨h1, h2⟩ := deadzone_bounds_pos hs0 hs1 h hp1
    exact ⟨by linarith, h2⟩

theorem scale_speed_abs_le_one {s m speed : ℚ} (hs0 : 0 ≤ s) (hs1 : s ≤ 1)
    (hm0 : 0 ≤ m) (hm1 : m ≤ 1) (hp0 : -1 ≤ speed) (hp1 : speed ≤ 1) :
    |scale_speed s m speed| ≤ 1 := by
  obtain ⟨hd1, hd2⟩ := deadzone_abs_le_one hs0 hs1 hp0 hp1
  have hx1 : deadzone s speed * m ≤ 1 := by nlinarith
  have hx2 : -1 ≤ deadzone s speed * m := by nlinarith
  rw [abs_le]
  exact ⟨neg_one_le_round4 hx2, round4_le_one hx1⟩

theorem scale_speed_abs_le {s m speed : ℚ} (hs0 : 0 ≤ s) (hs1 : s ≤ 1)
    (hm0 : 0 ≤ m) (hm1 : m ≤ 1) (hp0 : -1 ≤ speed) (hp1 : speed ≤ 1) :
    |scale_speed s m speed| ≤ m + 1/20000 := by
  obtain ⟨hd1, hd2⟩ := deadzone_abs_le_one hs0 hs1 hp0 hp1
  have hx1 : deadzone s speed * m ≤ m := by nlinarith
  have hx2 : -m ≤ deadzone s speed * m := by nlinarith
  have hnear := round4_near (deadzone s speed * m)
  rw [abs_le] at hnear ⊢
  simp only [scale_speed]
  constructor <;> linarith [hnear.1, hnear.2]

/-! ### Helper lemmas about the operations on the global state -/

theorem drive_noBackend (st : GState) (ref : Nat) (m : MotorM) (speed : ℚ)
    (hm : st.heap[ref]? = some m) (hs : m.has_serial = false)
    (hp : m.has_pwm = false) :
    Motor_drive st ref speed = (st, Except.error (MotorError.NoDriversError m.motor_id)) := by
  simp [Motor_drive, hm, hs, hp]

theorem drive_serial (st : GState) (ref : Nat) (m : MotorM) (speed : ℚ)
    (hm : st.heap[ref]? = some m) (hs : m.has_serial = true) :
    Motor_drive st ref speed
      = ({ st with serialLog := st.serialLog ++ [transmit_byte m speed] }, Except.ok ()) := by
  simp [Motor_drive, hm, hs]

theorem drive_count (st : GState) (ref : Nat) (speed : ℚ) :
    (Motor_drive st ref speed).1.count = st.count := by
  rcases h : st.heap[ref]? with _ | m
  · simp [Motor_drive, h]
  · simp only [Motor_drive, h]
    split_ifs <;> rfl

theorem shutdown_count (st : GState) (ref : Nat) :
    (Motor_shutdown st ref).1.count = st.count := by
  have hd := drive_count st ref 0
  rcases h : Motor_drive st ref 0 with ⟨st', e⟩
  rw [h] at hd
  rcases e with e | u
  · simp only [Motor_shutdown, h]
    simpa using hd
  · simp only [Motor_shutdown, h]
    split_ifs <;> simpa using hd

theorem calib_refl (st : GState) : calibPreserved st st := by
  intro i m hi
  exact ⟨m, hi, rfl, rfl⟩

theorem calib_trans {st1 st2 st3 : GState} (h1 : calibPreserved st1 st2)
    (h2 : calibPreserved st2 st3) : calibPreserved st1 st3 := by
  intro i m hi
  obtain ⟨m', h', hs', hm'⟩ := h1 i m hi
  obtain ⟨m'', h'', hs'', hm''⟩ := h2 i m' h'
  exact ⟨m'', h'', by rw [hs'', hs'], by rw [hm'', hm']⟩

theorem calib_heap_eq {st st' : GState} (h : st'.heap = st.heap) :
    calibPreserved st st' := by
  intro i m hi
  exact ⟨m, by rw [h]; exact hi, rfl, rfl⟩

theorem calib_setMotor (st : GState) (ref : Nat) (m m2 : MotorM)
    (hm : st.heap[ref]? = some m)
    (hs : m2.start_input = m.start_input) (hms : m2.max_speed = m.max_speed) :
    calibPreserved st (setMotor st ref m2) := by
  intro i mi hi
  by_cases hir : i = ref
  · subst hir
    have hlen : i < st.heap.length := (List.getElem?_eq_some.mp hm).1
    refine ⟨m2, ?_, ?_, ?_⟩
    · simpa [setMotor] using List.getElem?_set_eq_of_lt m2 hlen
    · rw [hs]
      rw [hm] at hi
      cases hi
      rfl
    · rw [hms]
      rw [hm] at hi
      cases hi
      rfl
  · refine ⟨mi, ?_, rfl, rfl⟩
    simpa [setMotor] using (List.getElem?_set_ne (fun hh => hir hh.symm)).trans hi

theorem calib_drive (st : GState) (ref : Nat) (speed : ℚ) :
    calibPreserved st (Motor_drive st ref speed).1 := by
  rcases h : st.heap[ref]? with _ | m
  · simp only [Motor_drive, h]
    exact calib_refl st
  · by_cases h1 : m.has_serial = true
    · simp only [Motor_drive, h, if_pos h1]
      exact calib_heap_eq rfl
    · by_cases h2 : m.has_pwm = true
      · simp only [Motor_drive, h, if_neg h1, if_pos h2]
        exact calib_setMotor st ref m _ h rfl rfl
      · simp only [Motor_drive, h, if_neg h1, if_neg h2]
        exact calib_refl st

theorem calib_enable_serial (st : GState) (ref : Nat) :
    calibPreserved st (Motor_enable_serial st ref) := by
  rcases h : st.heap[ref]? with _ | m
  · simp only [Motor_enable_serial, h]
    exact calib_refl st
  · simp only [Motor_enable_serial, h]
    exact calib_setMotor st ref m _ h rfl rfl

theorem calib_enable_pwm (st : GState) (ref pwm direction : Nat) (frequency : ℚ) :
    calibPreserved st (Motor_enable_pwm st ref pwm direction frequency) := by
  rcases h : st.heap[ref]? with _ | m
  · simp only [Motor_enable_pwm, h]
    exact calib_refl st
  · simp only [Motor_enable_pwm, h]
    exact calib_setMotor st ref m _ h rfl rfl

theorem calib_shutdown (st : GState) (ref : Nat) :
    calibPreserved st (Motor_shutdown st ref).1 := by
  have hd := calib_drive st ref 0
  rcases h : Motor_drive st ref 0 with ⟨st', e⟩
  rw [h] at hd
  rcases e with e | u
  · simpa [Motor_shutdown, h] using hd
  · simp only [Motor_shutdown, h]
    split_ifs
    · exact calib_trans hd (calib_heap_eq rfl)
    · exact hd

theorem calib_loop (fuel : Nat) : ∀ (i : Nat) (st : GState),
    calibPreserved st (shutdownAllLoop fuel i st).1 := by
  induction fuel with
  | zero => intro i st; exact calib_refl st
  | succ fuel ih =>
    intro i st
    rcases h : st.registry[i]? with _ | ref
    · simp only [shutdownAllLoop, h]
      exact calib_refl st
    · have hs := calib_shutdown st ref
      rcases hsd : Motor_shutdown st ref with ⟨st', e⟩
      rw [hsd] at hs
      rcases e with e | u
      · simpa [shutdownAllLoop, h, hsd] using hs
      · simp only [shutdownAllLoop, h, hsd]
        exact calib_trans hs (ih (i+1) st')

theorem calib_shutdown_all (st : GState) :
    calibPreserved st (Motor_shutdown_all st).1 := by
  have hl := calib_loop (st.registry.length + 1) 0 st
  rcases h : shutdownAllLoop (st.registry.length + 1) 0 st with ⟨st', e⟩
  rw [h] at hl
  rcases e with e | u
  · simpa [Motor_shutdown_all, h] using hl
  · simp only [Motor_shutdown_all, h]
    exact calib_trans hl (calib_heap_eq rfl)

/-! ### Claim theorems -/

/-- C5: when a fault interrupt fires on either fault line, the classification
is determined by the pair of instantaneous fault-line levels, first match
winning: both high yields Undervolt; only line 1 high yields Overtemp; only
line 2 high yields ShortCircuitLatched.  The callback does not depend on
which line triggered the interrupt (the `channel` argument is unused). -/
theorem fault_classification :
    (∀ st : GState, (Motor_catch_fault st true true).2 = some FaultKind.Undervolt)
  ∧ (∀ st : GState, (Motor_catch_fault st true false).2 = some FaultKind.Overtemp)
  ∧ (∀ st : GState, (Motor_catch_fault st false true).2 = some FaultKind.ShortCircuitLatched) :=
  ⟨fun _ => rfl, fun _ => rfl, fun _ => rfl⟩

/-- C10: when both fault lines read low the callback emits no classification,
and in every branch it mutates no motor or registry state and raises nothing
(it is a pure read-and-log function, so its state component is the identity
and its result type has no error case). -/
theorem catch_fault_silent_when_low :
    (∀ st : GState, Motor_catch_fault st false false = (st, none))
  ∧ (∀ (st : GState) (l1 l2 : Bool), (Motor_catch_fault st l1 l2).1 = st) :=
  ⟨fun _ => rfl, fun _ _ _ => rfl⟩

/-- C6: `drive` on a registered motor with neither backend enabled raises
`NoDriversError` (no silent no-op), and leaves the registry, the heap and
the motor's registration unchanged. -/
theorem drive_no_backend_error (st : GState) (ref : Nat) (m : MotorM) (speed : ℚ)
    (hm : st.heap[ref]? = some m) (hs : m.has_serial = false)
    (hp : m.has_pwm = false) (hr : ref ∈ st.registry) :
    Motor_drive st ref speed = (st, Except.error (MotorError.NoDriversError m.motor_id))
  ∧ (Motor_drive st ref speed).1.registry = st.registry
  ∧ ref ∈ (Motor_drive st ref speed).1.registry
  ∧ (Motor_drive st ref speed).1.heap = st.heap := by
  have h := drive_noBackend st ref m speed hm hs hp
  exact ⟨h, by rw [h], by rw [h]; exact hr, by rw [h]⟩

/-- C6 witness: the backend-less motor `stSolo` at a concrete speed. -/
theorem drive_no_backend_error_witness :
    Motor_drive stSolo 0 (1/2) = (stSolo, Except.error (MotorError.NoDriversError mSolo.motor_id))
  ∧ (Motor_drive stSolo 0 (1/2)).1.registry = stSolo.registry
  ∧ 0 ∈ (Motor_drive stSolo 0 (1/2)).1.registry
  ∧ (Motor_drive stSolo 0 (1/2)).1.heap = stSolo.heap :=
  drive_no_backend_error stSolo 0 mSolo (1/2)
    (by with_unfolding_all rfl) rfl rfl (by with_unfolding_all decide)

/-- C9: `shutdown` on a registered motor with neither backend enabled raises
`NoDriversError` out of the internal `drive(0)` step, before the
deregistration step, so the motor is still in the registry afterwards. -/
theorem shutdown_no_backend_keeps_registration (st : GState) (ref : Nat) (m : MotorM)
    (hm : st.heap[ref]? = some m) (hs : m.has_serial = false)
    (hp : m.has_pwm = false) (hr : ref ∈ st.registry) :
    Motor_shutdown st ref = (st, Except.error (MotorError.NoDriversError m.motor_id))
  ∧ ref ∈ (Motor_shutdown st ref).1.registry := by
  have h := drive_noBackend st ref m 0 hm hs hp
  have h2 : Motor_shutdown st ref = (st, Except.error (MotorError.NoDriversError m.motor_id)) := by
    simp [Motor_shutdown, h]
  exact ⟨h2, by rw [h2]; exact hr⟩

/-- C9 witness: the backend-less motor `stSolo`. -/
theorem shutdown_no_backend_keeps_registration_witness :
    Motor_shutdown stSolo 0 = (stSolo, Except.error (MotorError.NoDriversError mSolo.motor_id))
  ∧ 0 ∈ (Motor_shutdown stSolo 0).1.registry :=
  shutdown_no_backend_keeps_registration stSolo 0 mSolo
    (by with_unfolding_all rfl) rfl rfl (by with_unfolding_all decide)

/-- C7: on a motor with both backends enabled, `drive` transmits a serial
packet and changes nothing else: the heap (hence every motor's PWM duty
cycle and DIR level) and the registry are untouched. -/
theorem drive_serial_priority (st : GState) (ref : Nat) (m : MotorM) (speed : ℚ)
    (hm : st.heap[ref]? = some m) (hs : m.has_serial = true) (hp : m.has_pwm = true) :
    Motor_drive st ref speed
      = ({ st with serialLog := st.serialLog ++ [transmit_byte m speed] }, Except.ok ())
  ∧ (Motor_drive st ref speed).1.heap = st.heap
  ∧ (Motor_drive st ref speed).1.registry = st.registry := by
  have h := drive_serial st ref m speed hm hs
  exact ⟨h, by rw [h], by rw [h]⟩

/-- C7 witness: the dual-backend motor `stDual` at a concrete speed. -/
theorem drive_serial_priority_witness :
    Motor_drive stDual 0 (1/2)
      = ({ stDual with serialLog := stDual.serialLog ++ [transmit_byte mDual (1/2)] }, Except.ok ())
  ∧ (Motor_drive stDual 0 (1/2)).1.heap = stDual.heap
  ∧ (Motor_drive stDual 0 (1/2)).1.registry = stDual.registry :=
  drive_serial_priority stDual 0 mDual (1/2) (by with_unfolding_all rfl) rfl rfl

/-- C1 counterexample: for the §8 scenario-B motor (`start_input = 0.2`,
`max_speed = 0.8`, serial enabled), `drive(-1.0)` transmits the byte
`motor_id<<6 | 1<<5 | 24` = 56, not `motor_id<<6 | 1<<5 | 25` = 57 as the
claim states: the code computes the magnitude with Python `int()`
(truncation), so `int(0.8 * 31) = int(24.8) = 24`, not `round(24.8) = 25`. -/
theorem transmit_rounds_toward_zero_cex :
    (Motor_drive stLeft 0 (-1)).1.serialLog ≠ [mLeft.motor_id * 64 + 1 * 32 + 25]
  ∧ (Motor_drive stLeft 0 (-1)).1.serialLog = [mLeft.motor_id * 64 + 1 * 32 + 24] := by
  constructor
  · with_unfolding_all decide
  · with_unfolding_all decide

/-- C1 (amended): for every registered motor (`motor_id < 4`, calibration in
range) and speed in [-1,1], a serial-backed `drive` call transmits exactly
one byte whose bits [7:6] are `motor_id`, bit 5 is 1 iff the unscaled
requested speed is negative, and bits [4:0] are `⌊|scaled_speed| * 31⌋`
(truncation toward zero, not rounding to nearest); the magnitude field never
exceeds 31, so no field overflows its width. -/
theorem transmit_byte_fields (st : GState) (ref : Nat) (m : MotorM) (speed : ℚ)
    (hm : st.heap[ref]? = some m) (hs : m.has_serial = true) (hid : m.motor_id < 4)
    (h1 : 0 ≤ m.start_input) (h2 : m.start_input ≤ 1)
    (h3 : 0 ≤ m.max_speed) (h4 : m.max_speed ≤ 1)
    (h5 : -1 ≤ speed) (h6 : speed ≤ 1) :
    Motor_drive st ref speed
      = ({ st with serialLog := st.serialLog ++ [transmit_byte m speed] }, Except.ok ())
  ∧ transmit_byte m speed / 64 = m.motor_id
  ∧ transmit_byte m speed / 32 % 2 = (if speed < 0 then 1 else 0)
  ∧ transmit_byte m speed % 32
      = (⌊|scale_speed m.start_input m.max_speed speed| * 31⌋).toNat
  ∧ (⌊|scale_speed m.start_input m.max_speed speed| * 31⌋).toNat ≤ 31 := by
  have hdrive := drive_serial st ref m speed hm hs
  have habs : |scale_speed m.start_input m.max_speed speed| ≤ 1 :=
    scale_speed_abs_le_one h1 h2 h3 h4 h5 h6
  have h31 : |scale_speed m.start_input m.max_speed speed| * 31 ≤ 31 := by nlinarith
  have hfl : ⌊|scale_speed m.start_input m.max_speed speed| * 31⌋ ≤ 31 := by
    have hq := Int.floor_le_floor h31
    simpa using hq
  have hmag : (⌊|scale_speed m.start_input m.max_speed speed| * 31⌋).toNat ≤ 31 := by
    omega
  refine ⟨hdrive, ?_, ?_, ?_, hmag⟩ <;>
    · simp only [transmit_byte, motorPacketByte]
      rcases lt_or_le speed 0 with hneg | hpos
      · simp only [if_pos hneg]
        omega
      · simp only [if_neg (not_lt.mpr hpos)]
        omega

/-- C1 witness: the scenario-B motor at speed `-1.0`. -/
theorem transmit_byte_fields_witness :
    Motor_drive stLeft 0 (-1)
      = ({ stLeft with serialLog := stLeft.serialLog ++ [transmit_byte mLeft (-1)] }, Except.ok ())
  ∧ transmit_byte mLeft (-1) / 64 = mLeft.motor_id
  ∧ transmit_byte mLeft (-1) / 32 % 2 = (if (-1 : ℚ) < 0 then 1 else 0)
  ∧ transmit_byte mLeft (-1) % 32
      = (⌊|scale_speed mLeft.start_input mLeft.max_speed (-1)| * 31⌋).toNat
  ∧ (⌊|scale_speed mLeft.start_input mLeft.max_speed (-1)| * 31⌋).toNat ≤ 31 :=
  transmit_byte_fields stLeft 0 mLeft (-1) (by with_unfolding_all rfl) rfl
    (by with_unfolding_all decide) (by with_unfolding_all decide)
    (by with_unfolding_all decide) (by with_unfolding_all decide)
    (by with_unfolding_all decide) (by norm_num) (by norm_num)

/-- C4 counterexample: with `max_speed = 0` (allowed by the constructor) the
scaled value of a nonzero speed is 0, which does not have the sign of the
input; and with `max_speed = 0.00006` the result of scaling speed 1 is
`round(0.00006, 4) = 0.0001 > max_speed`, so `|scale| ≤ max_speed` also
fails (the 4-decimal rounding can overshoot the ceiling). -/
theorem scale_speed_claim_cex :
    scale_speed 0 0 1 = 0
  ∧ ¬ 0 < scale_speed 0 0 1
  ∧ (6/100000 : ℚ) < |scale_speed 0 (6/100000) 1| := by
  refine ⟨?_, ?_, ?_⟩
  · with_unfolding_all decide
  · with_unfolding_all decide
  · with_unfolding_all decide

/-- C4 (amended): for speed in [-1,1] and `start_input`, `max_speed` in
[0,1]: zero maps to exactly zero; the scaled result never has the sign
opposite to the input (`0 ≤ speed * scale`); its absolute value is at most
`max_speed + 1/20000` (the 4-decimal rounding can overshoot `max_speed` by
at most 0.00005); and the sign is strictly preserved as soon as
`|speed| * max_speed` clears the rounding threshold 1/20000 — in particular
whenever `max_speed > 0` and the request is not vanishingly small. -/
theorem scale_speed_props (s m speed : ℚ) (hs0 : 0 ≤ s) (hs1 : s ≤ 1)
    (hm0 : 0 ≤ m) (hm1 : m ≤ 1) (hp0 : -1 ≤ speed) (hp1 : speed ≤ 1) :
    scale_speed s m 0 = 0
  ∧ 0 ≤ speed * scale_speed s m speed
  ∧ |scale_speed s m speed| ≤ m + 1/20000
  ∧ (1/20000 < speed * m → 0 < scale_speed s m speed)
  ∧ (speed * m < -(1/20000) → scale_speed s m speed < 0) := by
  refine ⟨scale_speed_zero s m, ?_, scale_speed_abs_le hs0 hs1 hm0 hm1 hp0 hp1, ?_, ?_⟩
  · rcases lt_trichotomy speed 0 with h | h | h
    · obtain ⟨hd1, hd2⟩ := deadzone_bounds_neg hs0 hs1 h hp0
      have hx : deadzone s speed * m ≤ 0 := by nlinarith
      have := round4_nonpos hx
      simp only [scale_speed]
      nlinarith
    · rw [h, scale_speed_zero, mul_zero]
    · obtain ⟨hd1, hd2⟩ := deadzone_bounds_pos hs0 hs1 h hp1
      have hx : 0 ≤ deadzone s speed * m := by nlinarith
      have := round4_nonneg hx
      simp only [scale_speed]
      nlinarith
  · intro h
    have hsp : 0 < speed := by nlinarith
    obtain ⟨hd1, hd2⟩ := deadzone_bounds_pos hs0 hs1 hsp hp1
    have hx : 1/20000 < deadzone s speed * m := by nlinarith
    exact round4_pos hx
  · intro h
    have hsp : speed < 0 := by nlinarith
    obtain ⟨hd1, hd2⟩ := deadzone_bounds_neg hs0 hs1 hsp hp0
    have hx : deadzone s speed * m < -(1/20000) := by nlinarith
    exact round4_neg hx

/-- C4 witness: `start_input = 0.2`, `max_speed = 0.8`, speed `0.5`. -/
theorem scale_speed_props_witness :
    scale_speed (1/5) (4/5) 0 = 0
  ∧ 0 ≤ (1/2 : ℚ) * scale_speed (1/5) (4/5) (1/2)
  ∧ |scale_speed (1/5) (4/5) (1/2)| ≤ 4/5 + 1/20000
  ∧ ((1/20000 : ℚ) < 1/2 * (4/5) → 0 < scale_speed (1/5) (4/5) (1/2))
  ∧ ((1/2 : ℚ) * (4/5) < -(1/20000) → scale_speed (1/5) (4/5) (1/2) < 0) :=
  scale_speed_props (1/5) (4/5) (1/2) (by norm_num) (by norm_num) (by norm_num)
    (by norm_num) (by norm_num) (by norm_num)

/-- C2 counterexample: after four motors have been constructed (`stFour`) and
motor 0 has been deregistered via `shutdown` (`stThree`, registry `[1,2,3]`),
constructing a new motor still fails with `TooManyMotorsError`: `shutdown`
removes the motor from `Motor.motors` but never decrements the monotonic
class counter `Motor._count`, which the capacity check reads. -/
theorem fifth_motor_after_shutdown_cex :
    stThree.registry = [1, 2, 3]
  ∧ Motor_init stThree "e" 13 14 15 0 1 = (stThree, Except.error MotorError.TooManyMotorsError) := by
  constructor
  · with_unfolding_all decide
  · with_unfolding_all rfl

/-- C2 (amended): constructing a motor while the class counter stands at 4
fails with `TooManyMotorsError` and leaves all state unchanged; but
deregistering a motor via `shutdown` does not restore capacity, because
`shutdown` never changes the counter — so a 5th construction fails even
after a shutdown, for as long as the process lives. -/
theorem capacity_not_restored (st st2 st3 : GState) (ref2 : Nat)
    (res : Except MotorError Unit) (nm : String) (f1 f2 rst : Nat) (si ms : ℚ)
    (hc : st.count = 4) (hshut : Motor_shutdown st2 ref2 = (st3, res)) :
    Motor_init st nm f1 f2 rst si ms = (st, Except.error MotorError.TooManyMotorsError)
  ∧ st3.count = st2.count := by
  constructor
  · simp [Motor_init, hc]
  · have h := shutdown_count st2 ref2
    rw [hshut] at h
    exact h

/-- C2 witness: the concrete four-motor history `stFour` / `stThree`. -/
theorem capacity_not_restored_witness :
    Motor_init stThree "x" 21 22 23 0 1 = (stThree, Except.error MotorError.TooManyMotorsError)
  ∧ stThree.count = stFour.count :=
  capacity_not_restored stThree stFour stThree 0 (Except.ok ()) "x" 21 22 23 0 1
    (by with_unfolding_all rfl) (by with_unfolding_all rfl)

/-- C3 (code bug): `shutdown_all` iterates over `Motor.motors` while each
`shutdown` call removes the current motor from that same list, so Python's
iterator skips every other element.  With exactly two registered
serial-enabled motors (`stPair`, registry `[0, 1]`): only motor 0 is driven
to 0 (one byte, value 0, on the wire), motor 1 is never driven and stays
registered (final registry `[1]`, not `[]`), and `gpio.cleanup()` still runs
exactly once.  This contradicts the method's stated purpose of shutting down
and deregistering ALL motors. -/
theorem shutdown_all_skips_second_motor :
    stPair.registry = [0, 1]
  ∧ Motor_shutdown_all stPair
      = ({ stPair with registry := [1], serialLog := [0], cleanupCount := 1 }, Except.ok ())
  ∧ (Motor_shutdown_all stPair).1.registry ≠ [] := by
  refine ⟨?_, ?_, ?_⟩
  · with_unfolding_all decide
  · with_unfolding_all rfl
  · with_unfolding_all decide

/-- C8: constructing a motor with `start_input` or `max_speed` outside [0,1]
fails with `InvalidArgError` and creates no motor (the state is returned
untouched, nothing is clamped); every construction that succeeds stores the
arguments verbatim, so the registered motor satisfies
`0 ≤ start_input ≤ 1` and `0 ≤ max_speed ≤ 1`; and no later operation
(`drive`, `enable_serial`, `enable_pwm`, `shutdown`, `shutdown_all`) ever
changes any motor's `start_input` or `max_speed`, so the invariant holds for
the motor's whole lifetime.  (When the registry is full the capacity check
fires first, hence the `count ≠ 4` hypothesis for the error-kind part.) -/
theorem init_validates_calibration
    (st : GState) (nm : String) (f1 f2 rst : Nat) (si ms : ℚ)
    (stS : GState) (nmS : String) (f1S f2S rstS : Nat) (siS msS : ℚ)
    (stR : GState) (ref : Nat) (st4 : GState) (r4 p4 d4 : Nat) (sp4 fq4 : ℚ)
    (hc : st.count ≠ 4)
    (hbad : ¬(0 ≤ si ∧ si ≤ 1) ∨ ¬(0 ≤ ms ∧ ms ≤ 1))
    (hok : Motor_init stS nmS f1S f2S rstS siS msS = (stR, Except.ok ref)) :
    (Motor_init st nm f1 f2 rst si ms
        = (st, Except.error (MotorError.InvalidArgError "start_input should be between 0 and 1."))
      ∨ Motor_init st nm f1 f2 rst si ms
        = (st, Except.error (MotorError.InvalidArgError "max_speed should be between 0 and 1.")))
  ∧ stR.heap[ref]? = some (freshMotor stS.count nmS f1S f2S rstS siS msS)
  ∧ (0 ≤ siS ∧ siS ≤ 1) ∧ (0 ≤ msS ∧ msS ≤ 1)
  ∧ calibPreserved st4 (Motor_drive st4 r4 sp4).1
  ∧ calibPreserved st4 (Motor_enable_serial st4 r4)
  ∧ calibPreserved st4 (Motor_enable_pwm st4 r4 p4 d4 fq4)
  ∧ calibPreserved st4 (Motor_shutdown st4 r4).1
  ∧ calibPreserved st4 (Motor_shutdown_all st4).1 := by
  have hA : Motor_init st nm f1 f2 rst si ms
        = (st, Except.error (MotorError.InvalidArgError "start_input should be between 0 and 1."))
      ∨ Motor_init st nm f1 f2 rst si ms
        = (st, Except.error (MotorError.InvalidArgError "max_speed should be between 0 and 1.")) := by
    by_cases hsi : (0 ≤ si ∧ si ≤ 1)
    · rcases hbad with hbadsi | hbadms
      · exact absurd hsi hbadsi
      · right
        simp [Motor_init, hc, hsi, hbadms]
    · left
      simp [Motor_init, hc, hsi]
  have hmain : stR.heap[ref]? = some (freshMotor stS.count nmS f1S f2S rstS siS msS)
      ∧ (0 ≤ siS ∧ siS ≤ 1) ∧ (0 ≤ msS ∧ msS ≤ 1) := by
    unfold Motor_init at hok
    split_ifs at hok with hcnt hsi hms
    all_goals injection hok with hst hres
    all_goals
      first
      | exact Except.noConfusion hres
      | (injection hres with href
         subst hst
         subst href
         exact ⟨by simp, hsi, hms⟩)
  exact ⟨hA, hmain.1, hmain.2.1, hmain.2.2, calib_drive st4 r4 sp4,
    calib_enable_serial st4 r4, calib_enable_pwm st4 r4 p4 d4 fq4,
    calib_shutdown st4 r4, calib_shutdown_all st4⟩

/-- C8 witness: rejected construction with `start_input = 2` on the empty
state; accepted construction `stSolo`; lifetime preservation instantiated on
the dual-backend motor. -/
theorem init_validates_calibration_witness :
    (Motor_init st0 "bad" 1 2 3 2 1
        = (st0, Except.error (MotorError.InvalidArgError "start_input should be between 0 and 1."))
      ∨ Motor_init st0 "bad" 1 2 3 2 1
        = (st0, Except.error (MotorError.InvalidArgError "max_speed should be between 0 and 1.")))
  ∧ stSolo.heap[0]? = some (freshMotor st0.count "solo" 11 12 13 0 1)
  ∧ ((0:ℚ) ≤ 0 ∧ (0:ℚ) ≤ 1) ∧ ((0:ℚ) ≤ 1 ∧ (1:ℚ) ≤ 1)
  ∧ calibPreserved stDual (Motor_drive stDual 0 (1/2)).1
  ∧ calibPreserved stDual (Motor_enable_serial stDual 0)
  ∧ calibPreserved stDual (Motor_enable_pwm stDual 0 7 8 28000)
  ∧ calibPreserved stDual (Motor_shutdown stDual 0).1
  ∧ calibPreserved stDual (Motor_shutdown_all stDual).1 :=
  init_validates_calibration st0 "bad" 1 2 3 2 1 st0 "solo" 11 12 13 0 1
    stSolo 0 stDual 0 7 8 (1/2) 28000
    (by with_unfolding_all decide)
    (Or.inl (by norm_num))
    (by with_unfolding_all rfl)
